import Mathlib

/-!
Verification development for the transferdb parallel chunked-diff engine
(pkg/diff/diff.go).  The definitions below are a shallow embedding of that
source file: pure string and list computations stand for the SQL text the
code builds, Except stands for Go error returns, and the concurrent worker
pool of startTableDiffCheck is modelled as a sequential run that records the
observable actions (error-log inserts, chunk deletions, channel pushes and
closes, repair-file writes, status updates) in an event trace.
-/

/-- Modelled from the spec: the service.DataDiffMeta row type is declared
outside the reviewed sources.  Fields sourceSchemaName, sourceTableName,
sourceColumnInfo, targetColumnInfo, range and numberColumn are exactly the
fields pkg/diff/diff.go reads; snapshotSCN is the snapshot token column of
data_diff_meta described in spec sections 3 and 6. -/
structure DataDiffMeta where
  sourceSchemaName : String
  sourceTableName  : String
  sourceColumnInfo : String
  targetColumnInfo : String
  range            : String
  numberColumn     : String
  snapshotSCN      : String
  deriving DecidableEq

/-- One side of a chunk comparison, as sent over the oraChan / mysqlChan
channels in reportCheckCRC32 and reportCheckRows (struct DBSummary). -/
structure DBSummary where
  columns   : List String
  stringSet : List String
  crc32Val  : Nat
  rows      : Int
  deriving DecidableEq

/-- The per-chunk result pushed to the per-table result channel
(struct ReportSummary).  The Go map fields SourceRows / TargetRows are
modelled as association lists. -/
structure ReportSummary where
  crc32Result : String
  sourceName  : String
  targetName  : String
  sourceRows  : List (String × Int)
  targetRows  : List (String × Int)
  range       : String
  deriving DecidableEq

/-- Modelled from the spec: the service.Engine adapter methods used by the
diff code (GetOracleDataRowStrings, GetMySQLDataRowStrings,
GetOracleTableActualRows, GetMySQLTableActualRows) are external
collaborators (spec section 4.2); a row-digest call returns the column
list, the canonical row-string set and the folded CRC-32 value, or fails. -/
structure Engine where
  getOracleDataRowStrings  : String → Except String (List String × List String × Nat)
  getMySQLDataRowStrings   : String → Except String (List String × List String × Nat)
  getOracleTableActualRows : String → Except String Int
  getMySQLTableActualRows  : String → Except String Int

/-- Modelled from the spec: utils.StringsBuilder (not under the reviewed
sources) concatenates its arguments in order. -/
def stringsBuilder : List String → String
  | [] => ""
  | s :: rest => s ++ stringsBuilder rest

/-- One bit step of the reflected CRC-32 (IEEE polynomial 0xEDB88320). -/
def crc32Step (c : Nat) : Nat :=
  if c % 2 = 1 then (c / 2) ^^^ 0xEDB88320 else c / 2

/-- Eight bit steps folding one input byte into the CRC register. -/
def crc32Byte (c b : Nat) : Nat :=
  crc32Step (crc32Step (crc32Step (crc32Step
    (crc32Step (crc32Step (crc32Step (crc32Step (c ^^^ b % 256))))))))

/-- Modelled from the spec: the adapters fold a CRC-32 over a canonical row
string (FetchRowDigest, spec section 4.2); standard init and final xor. -/
def crc32OfBytes (l : List Nat) : Nat :=
  (l.foldl crc32Byte 0xFFFFFFFF) ^^^ 0xFFFFFFFF

/-- CRC-32 of a canonical row string (rows are ASCII text). -/
def strCrc32 (s : String) : Nat :=
  crc32OfBytes (s.data.map Char.toNat)

/-- Modelled from the spec: without an ORDER BY the adapters accumulate the
per-row CRC-32 values into a commutative accumulator via XOR (spec
section 4.2), so the digest of a row set is the XOR of its row digests. -/
def rowSetCrc32 (rows : List String) : Nat :=
  rows.foldl (fun a r => a ^^^ strCrc32 r) 0

/-- The upstream chunk query built by Report (diff.go lines 556-570). -/
def oraQueryOf (dm : DataDiffMeta) : String :=
  if dm.numberColumn = "" then
    stringsBuilder ["SELECT ", dm.sourceColumnInfo, " FROM ", dm.sourceSchemaName, ".",
      dm.sourceTableName, " WHERE ", dm.range]
  else
    stringsBuilder ["SELECT ", dm.sourceColumnInfo, " FROM ", dm.sourceSchemaName, ".",
      dm.sourceTableName, " WHERE ", dm.range, " ORDER BY ", dm.numberColumn, " DESC"]

/-- The downstream chunk query built by Report (diff.go lines 556-570). -/
def mysqlQueryOf (targetSchema : String) (dm : DataDiffMeta) : String :=
  if dm.numberColumn = "" then
    stringsBuilder ["SELECT ", dm.targetColumnInfo, " FROM ", targetSchema, ".",
      dm.sourceTableName, " WHERE ", dm.range]
  else
    stringsBuilder ["SELECT ", dm.targetColumnInfo, " FROM ", targetSchema, ".",
      dm.sourceTableName, " WHERE ", dm.range, " ORDER BY ", dm.numberColumn, " DESC"]

/-- strset.Difference(a, b).List(): the members of a that are not members
of b (go-set sets are duplicate free; the list order of the Go API is
unspecified, the model keeps the order of a). -/
def strsetDifference (a b : List String) : List String :=
  a.filter (fun x => !(b.contains x))

/-- strings.Split(t, ",") on a canonical row string: the pieces between
the commas (an empty string gives one empty piece, as in Go).  Written as
structural recursion over the characters so it evaluates by kernel
reduction. -/
def commaSplitAux : List Char → List Char → List String
  | [], acc => [String.mk acc.reverse]
  | c :: rest, acc =>
    if c = ',' then String.mk acc.reverse :: commaSplitAux rest []
    else commaSplitAux rest (c :: acc)

/-- strings.Split(t, ","). -/
def commaSplit (s : String) : List String :=
  commaSplitAux s.data []

/-- Whether the needle list occurs at the head of the haystack list. -/
def startsWithChars : List Char → List Char → Bool
  | _, [] => true
  | [], _ :: _ => false
  | h :: hs, n :: ns => h = n && startsWithChars hs ns

/-- Whether the needle list occurs anywhere inside the haystack list. -/
def containsChars : List Char → List Char → Bool
  | [], n => n.isEmpty
  | h :: hs, n => startsWithChars (h :: hs) n || containsChars hs n

/-- The error built at diff.go line 682 when a downstream-extra row does
not split into exactly the downstream column count. -/
def countMismatchMsg (targetSchema tbl : String) (colCount valCount : Nat) : String :=
  "mysql schema [" ++ targetSchema ++ "] table [" ++ tbl ++ "] column counts [" ++
    toString colCount ++ "] isn't match values counts [" ++ toString valCount ++ "]"

/-- The DELETE statement head built at diff.go line 675. -/
def crcDeleteFrom (targetSchema tbl : String) : String :=
  stringsBuilder ["DELETE FROM ", targetSchema, ".", tbl, " WHERE "]

/-- The INSERT statement head built at diff.go line 712. -/
def crcInsertInto (targetSchema tbl : String) (oraColumns : List String) : String :=
  stringsBuilder ["INSERT INTO ", targetSchema, ".", tbl, " (",
    String.intercalate "," oraColumns, ") VALUES ("]

/-- The DELETE statement for one downstream-extra row: the WHERE clause
zips the downstream column list with the comma-split canonical values
(diff.go lines 680-689). -/
def crcDeleteStmtFor (targetSchema tbl : String) (cols : List String) (t : String) : String :=
  crcDeleteFrom targetSchema tbl ++
    String.intercalate " AND "
      ((cols.zip (commaSplit t)).map (fun p => stringsBuilder [p.1, "=", p.2]))

/-- The loop of diff.go lines 676-690: one DELETE statement per
downstream-extra row, failing at the first row whose comma-split value
count is not the downstream column count. -/
def crcDeleteStmts (targetSchema tbl : String) (cols : List String) :
    List String → Except String (List String)
  | [] => .ok []
  | t :: rest =>
    if cols.length ≠ (commaSplit t).length then
      .error (countMismatchMsg targetSchema tbl cols.length (commaSplit t).length)
    else
      match crcDeleteStmts targetSchema tbl cols rest with
      | .error e => .error e
      | .ok l => .ok (crcDeleteStmtFor targetSchema tbl cols t :: l)

/-- The COUNT(1) query shown for the upstream side in the fragment header
(diff.go line 667). -/
def crcCountSQLOra (dm : DataDiffMeta) : String :=
  stringsBuilder ["SELECT COUNT(1)", " FROM ", dm.sourceSchemaName, ".",
    dm.sourceTableName, " WHERE ", dm.range]

/-- The COUNT(1) query shown for the downstream side in the fragment header
(diff.go line 670). -/
def crcCountSQLMySQL (targetSchema : String) (dm : DataDiffMeta) : String :=
  stringsBuilder ["SELECT COUNT(1)", " FROM ", targetSchema, ".",
    dm.sourceTableName, " WHERE ", dm.range]

/-- Modelled from the spec: the go-pretty table writer is an external
library; its render of the DATABASE / DATA COUNTS SQL / CRC32 summary rows
is modelled as plain delimited text carrying the same cells. -/
def renderCrcCompareTable (oraCountSQL mysqlCountSQL : String) (oraCrc mysqlCrc : Nat) : String :=
  "| ORACLE | " ++ oraCountSQL ++ " | " ++ toString oraCrc ++ " |\n| MySQL | " ++
    mysqlCountSQL ++ " | " ++ toString mysqlCrc ++ " |"

/-- The comment header written before the DELETE statements
(diff.go lines 659-674). -/
def crcDeleteHeader (targetSchema : String) (dm : DataDiffMeta) (oraCrc mysqlCrc : Nat) : String :=
  "/*\n" ++ " mysql table [" ++ targetSchema ++ "." ++ dm.sourceTableName ++ "] chunk [" ++
    dm.range ++ "] data rows are more \n" ++
    renderCrcCompareTable (crcCountSQLOra dm) (crcCountSQLMySQL targetSchema dm) oraCrc mysqlCrc ++
    "\n" ++ "*/\n"

/-- The comment header written before the INSERT statements
(diff.go lines 696-711). -/
def crcInsertHeader (targetSchema : String) (dm : DataDiffMeta) (oraCrc mysqlCrc : Nat) : String :=
  "/*\n" ++ " mysql table [" ++ targetSchema ++ "." ++ dm.sourceTableName ++ "] chunk [" ++
    dm.range ++ "] data rows are less \n" ++
    renderCrcCompareTable (crcCountSQLOra dm) (crcCountSQLMySQL targetSchema dm) oraCrc mysqlCrc ++
    "\n" ++ "*/\n"

/-- The fixSQL strings.Builder content of reportCheckCRC32 (diff.go lines
654-716), given the already built DELETE statement list: the optional
delete block (header, then one statement and ";\n" per row, appended left
to right as the Builder does) followed by the optional insert block. -/
def crcFixSQL (targetSchema : String) (dm : DataDiffMeta) (ora mysql : DBSummary)
    (deleteStmtList : List String) : String :=
  (if strsetDifference mysql.stringSet ora.stringSet = [] then ""
   else
     crcDeleteHeader targetSchema dm ora.crc32Val mysql.crc32Val ++
       deleteStmtList.foldl (fun acc s => acc ++ s ++ ";\n") "") ++
  (if strsetDifference ora.stringSet mysql.stringSet = [] then ""
   else
     crcInsertHeader targetSchema dm ora.crc32Val mysql.crc32Val ++
       (strsetDifference ora.stringSet mysql.stringSet).foldl
         (fun acc s => acc ++ (crcInsertInto targetSchema dm.sourceTableName ora.columns ++ s ++ ")") ++ ";\n") "")

/-- The comparison stage of reportCheckCRC32 after both digests have been
read from their channels (diff.go lines 628-727).  The returned list holds
the ReportSummary values pushed to the result channel (zero or one). -/
def reportCheckCRC32Core (targetSchema : String) (dm : DataDiffMeta)
    (ora mysql : DBSummary) : Except String (List ReportSummary) :=
  if ora.crc32Val = mysql.crc32Val then .ok []
  else
    match crcDeleteStmts targetSchema dm.sourceTableName mysql.columns
        (strsetDifference mysql.stringSet ora.stringSet) with
    | .error e => .error e
    | .ok stmts =>
      if crcFixSQL targetSchema dm ora mysql stmts = "" then .ok []
      else
        .ok [{ crc32Result := crcFixSQL targetSchema dm ora mysql stmts
               sourceName := stringsBuilder [dm.sourceSchemaName, ".", dm.sourceTableName]
               targetName := stringsBuilder [targetSchema, ".", dm.sourceTableName]
               sourceRows := []
               targetRows := []
               range := dm.range }]

/-- reportCheckCRC32 (diff.go lines 585-728): fetch both digests (the
upstream error is checked first, as errORA.Wait is), then compare. -/
def reportCheckCRC32 (targetSchema oraQuery mysqlQuery : String) (dm : DataDiffMeta)
    (engine : Engine) : Except String (List ReportSummary) :=
  match engine.getOracleDataRowStrings oraQuery with
  | .error e => .error ("get oracle data row strings failed: " ++ e)
  | .ok (oraColumns, oraStringSet, oraCrc32Val) =>
    match engine.getMySQLDataRowStrings mysqlQuery with
    | .error e => .error ("get mysql data row strings failed: " ++ e)
    | .ok (mysqlColumns, mysqlStringSet, mysqlCrc32Val) =>
      reportCheckCRC32Core targetSchema dm
        { columns := oraColumns, stringSet := oraStringSet, crc32Val := oraCrc32Val, rows := 0 }
        { columns := mysqlColumns, stringSet := mysqlStringSet, crc32Val := mysqlCrc32Val, rows := 0 }

/-- reportCheckRows (diff.go lines 730-803): fetch both counts, push one
rows-mode summary exactly when the counts differ. -/
def reportCheckRows (targetSchema oraQuery mysqlQuery : String) (dm : DataDiffMeta)
    (engine : Engine) : Except String (List ReportSummary) :=
  match engine.getOracleTableActualRows oraQuery with
  | .error e => .error e
  | .ok oraRows =>
    match engine.getMySQLTableActualRows mysqlQuery with
    | .error e => .error e
    | .ok mysqlRows =>
      if oraRows = mysqlRows then .ok []
      else
        .ok [{ crc32Result := ""
               sourceName := stringsBuilder [dm.sourceSchemaName, ".", dm.sourceTableName]
               targetName := stringsBuilder [targetSchema, ".", dm.sourceTableName]
               sourceRows := [(stringsBuilder [dm.sourceSchemaName, ".", dm.sourceTableName], oraRows)]
               targetRows := [(stringsBuilder [targetSchema, ".", dm.sourceTableName], mysqlRows)]
               range := dm.range }]

/-- Report (diff.go lines 554-583): build the two chunk queries, then run
the rows-mode or CRC-mode comparison. -/
def Report (targetSchema : String) (dm : DataDiffMeta) (engine : Engine)
    (onlyCheckRows : Bool) : Except String (List ReportSummary) :=
  if onlyCheckRows then
    reportCheckRows targetSchema (oraQueryOf dm) (mysqlQueryOf targetSchema dm) dm engine
  else
    reportCheckCRC32 targetSchema (oraQueryOf dm) (mysqlQueryOf targetSchema dm) dm engine

/-- The ReportSummary values pushed to the result channel by a Report run
(a Go error return pushes nothing, the push being the last action). -/
def pushesOf (r : Except String (List ReportSummary)) : List ReportSummary :=
  match r with
  | .error _ => []
  | .ok l => l

/-- pat occurs in s as a contiguous substring. -/
def occursIn (pat s : String) : Prop :=
  containsChars s.data pat.data = true

instance occursInDecidable (pat s : String) : Decidable (occursIn pat s) :=
  inferInstanceAs (Decidable (containsChars s.data pat.data = true))

/-- The fragment text the spec describes for a chunk (spec sections 4.6 and
8): the optional delete block listing exactly one DELETE statement per
downstream-extra row, then the optional insert block listing exactly one
INSERT statement per upstream-extra row, and nothing else.  Stated with
map and stringsBuilder, to be compared against the Builder fold of
crcFixSQL. -/
def crcSpecFragment (targetSchema : String) (dm : DataDiffMeta) (ora mysql : DBSummary) : String :=
  (if strsetDifference mysql.stringSet ora.stringSet = [] then ""
   else
     crcDeleteHeader targetSchema dm ora.crc32Val mysql.crc32Val ++
       stringsBuilder ((strsetDifference mysql.stringSet ora.stringSet).map
         (fun t => crcDeleteStmtFor targetSchema dm.sourceTableName mysql.columns t ++ ";\n"))) ++
  (if strsetDifference ora.stringSet mysql.stringSet = [] then ""
   else
     crcInsertHeader targetSchema dm ora.crc32Val mysql.crc32Val ++
       stringsBuilder ((strsetDifference ora.stringSet mysql.stringSet).map
         (fun s => crcInsertInto targetSchema dm.sourceTableName ora.columns ++ s ++ ");\n")))

/-- The pushes the spec describes for a CRC-mode chunk whose digests
differ: nothing when both set differences are empty, otherwise exactly one
summary carrying the fragment. -/
def crcSpecPushes (targetSchema : String) (dm : DataDiffMeta) (ora mysql : DBSummary) :
    List ReportSummary :=
  if strsetDifference mysql.stringSet ora.stringSet = [] ∧
      strsetDifference ora.stringSet mysql.stringSet = [] then []
  else
    [{ crc32Result := crcSpecFragment targetSchema dm ora mysql
       sourceName := stringsBuilder [dm.sourceSchemaName, ".", dm.sourceTableName]
       targetName := stringsBuilder [targetSchema, ".", dm.sourceTableName]
       sourceRows := []
       targetRows := []
       range := dm.range }]

/-- Modelled from the spec: DataDiffMeta.String (declared outside the
reviewed sources) renders the chunk identity used as the Detail column of
a table_error_detail record (spec section 4.5, detail includes chunk
identity). -/
def metaDetail (m : DataDiffMeta) : String :=
  stringsBuilder [m.sourceSchemaName, ".", m.sourceTableName, " chunk [", m.range, "]"]

/-- Observable actions of the diff driver (startTableDiffCheck,
PreSplitChunk, StartTableDiff), recorded as a trace by the sequential
model of the worker pool. -/
inductive Ev where
  | preChecked
  | fetchedSCN
  | splitChunk (tbl : String)
  | readDiffMeta (schema tbl : String)
  | pushed (r : ReportSummary)
  | wroteFix (s : String)
  | loggedError (schema tbl status detail errText : String)
  | deletedChunk (schema tbl range : String)
  | closedChannel
  | loggedTableFailure (schema tbl : String)
  | markedDone (schema tbl : String)
  deriving DecidableEq

/-- One chunk of a table run: the persisted DataDiffMeta row together with
the outcomes the metadata store will give this worker (the two
table_error_detail inserts and the data_diff_meta delete). -/
structure ChunkTask where
  meta : DataDiffMeta
  insertAfterReportErr : Option String
  deleteErr : Option String
  insertAfterDeleteErr : Option String

/-- The tail of the worker closure after the Report step (diff.go lines
383-398): delete the chunk row; a delete failure is logged (a failing log
insert returns the error); then close the shared channel and return nil. -/
def workerFinish (c : ChunkTask) (evs : List Ev) : Option String × List Ev :=
  match c.deleteErr with
  | none =>
    (none, evs ++ [Ev.deletedChunk c.meta.sourceSchemaName c.meta.sourceTableName c.meta.range,
      Ev.closedChannel])
  | some de =>
    match c.insertAfterDeleteErr with
    | some ie =>
      (some ("func [Report] diff table task failed, detail see [table_error_detail], please rerunning, error: " ++ ie), evs)
    | none =>
      (none, evs ++ [Ev.loggedError c.meta.sourceSchemaName c.meta.sourceTableName "Failed"
        (metaDetail c.meta) ("delete [data_diff_meta] record write failed: " ++ de),
        Ev.closedChannel])

/-- The per-chunk worker closure submitted at diff.go lines 367-399: run
Report against the uppercased target schema; on a Report error insert a
Failed record (a failing insert returns); then the finish steps. -/
def workerRun (targetSchema : String) (engine : Engine) (onlyCheckRows : Bool)
    (c : ChunkTask) : Option String × List Ev :=
  match Report targetSchema.toUpper c.meta engine onlyCheckRows with
  | .ok pushes => workerFinish c (pushes.map Ev.pushed)
  | .error e =>
    match c.insertAfterReportErr with
    | some ie =>
      (some (stringsBuilder ["func [Report] diff table [", c.meta.sourceSchemaName, ".",
        c.meta.sourceTableName, "] chunk [", c.meta.range,
        "] task failed, detail see [table_error_detail], please rerunning, error: ", ie]), [])
    | none =>
      workerFinish c [Ev.loggedError c.meta.sourceSchemaName c.meta.sourceTableName "Failed"
        (metaDetail c.meta) ("data diff record report failed: " ++ e)]

/-- Modelled from the spec: the rows-mode drain renders the go-pretty
summary table of the counts (external library), modelled as delimited
text with the same cells. -/
def renderRowsCompareTable (r : ReportSummary) : String :=
  "| " ++ r.sourceName ++ " | " ++
    String.intercalate "," (r.sourceRows.map (fun p => toString p.2)) ++ " | " ++
    r.targetName ++ " | " ++
    String.intercalate "," (r.targetRows.map (fun p => toString p.2)) ++ " | " ++ r.range ++ " |"

/-- What the drain goroutine writes to the fix sql file for one received
summary (diff.go lines 332-361); Fprintln appends a newline. -/
def drainRender (onlyCheckRows : Bool) (r : ReportSummary) : String :=
  if onlyCheckRows then
    "/* \n\tmysql table [" ++ r.sourceName ++ "] chunk [" ++ r.range ++
      "] data rows aren't equal\n */\n" ++ renderRowsCompareTable r ++ "\n" ++ "\n"
  else
    r.crc32Result ++ "\n"

/-- The per-table worker pool of diff.go lines 325-400, modelled as a
sequential run of the chunk workers followed by the drain writes.  The
first component is what the work group Wait returns (the first worker
error; the drain itself always returns nil because the sink is modelled,
per spec section 4.7, as an always-succeeding serialized writer). -/
def tableRun (targetSchema : String) (engine : Engine) (onlyCheckRows : Bool)
    (chunks : List ChunkTask) : Option String × List Ev :=
  let runs := chunks.map (workerRun targetSchema engine onlyCheckRows)
  let workerEvs := (runs.map Prod.snd).flatten
  let drainEvs := workerEvs.filterMap (fun e =>
    match e with
    | Ev.pushed r => some (Ev.wroteFix (drainRender onlyCheckRows r))
    | _ => none)
  ((runs.filterMap Prod.fst).head?, workerEvs ++ drainEvs)

/-- One table of the diff loop: its names, the outcome of the
GetDataDiffMeta read, the oracle outcomes of its chunk workers and of the
final ModifyWaitSyncTableMetaRecord status update. -/
structure TableEnv where
  schema : String
  table : String
  chunksResult : Except String (List ChunkTask)
  modifyErr : Option String

/-- The per-table loop of startTableDiffCheck (diff.go lines 312-423): a
failing chunk read returns; a work-group error is logged and the loop
continues with the next table, without the status update; otherwise the
table is marked done (a failing update returns). -/
def diffLoop (targetSchema : String) (engine : Engine) (onlyCheckRows : Bool) :
    List TableEnv → Option String × List Ev
  | [] => (none, [])
  | t :: rest =>
    match t.chunksResult with
    | .error e => (some e, [Ev.readDiffMeta t.schema t.table])
    | .ok chunks =>
      match (tableRun targetSchema engine onlyCheckRows chunks).1 with
      | some _ =>
        ((diffLoop targetSchema engine onlyCheckRows rest).1,
          (Ev.readDiffMeta t.schema t.table :: (tableRun targetSchema engine onlyCheckRows chunks).2)
            ++ Ev.loggedTableFailure t.schema t.table
              :: (diffLoop targetSchema engine onlyCheckRows rest).2)
      | none =>
        match t.modifyErr with
        | some e =>
          (some e, Ev.readDiffMeta t.schema t.table
            :: (tableRun targetSchema engine onlyCheckRows chunks).2)
        | none =>
          ((diffLoop targetSchema engine onlyCheckRows rest).1,
            (Ev.readDiffMeta t.schema t.table :: (tableRun targetSchema engine onlyCheckRows chunks).2)
              ++ Ev.markedDone t.schema t.table
                :: (diffLoop targetSchema engine onlyCheckRows rest).2)

/-- Environment of one startTableDiffCheck phase: the PreDiffCheck
outcome, the NewDiff result, and, used only on the non-checkpoint path,
the snapshot fetch outcome and the per-table SplitChunk outcomes. -/
structure CheckEnv where
  preCheckErr : Option String
  tables : Except String (List TableEnv)
  scnResult : Except String Int
  splitErrs : List (Option String)

/-- startTableDiffCheck (diff.go lines 283-425).  On the checkpoint path
(part tables) the loop runs directly on the persisted chunks; on the wait
path PreSplitChunk first fetches the snapshot SCN and splits every table
(all split workers run; the first split error is returned before the
loop). -/
def startTableDiffCheckM (isCheckpoint : Bool) (targetSchema : String) (engine : Engine)
    (onlyCheckRows : Bool) (env : CheckEnv) : Option String × List Ev :=
  match env.preCheckErr with
  | some e => (some e, [Ev.preChecked])
  | none =>
    match env.tables with
    | .error e => (some e, [Ev.preChecked])
    | .ok tbls =>
      if isCheckpoint then
        let r := diffLoop targetSchema engine onlyCheckRows tbls
        (r.1, Ev.preChecked :: r.2)
      else
        match env.scnResult with
        | .error e => (some e, [Ev.preChecked])
        | .ok _ =>
          let splitEvs := tbls.map (fun t => Ev.splitChunk t.table)
          match ((tbls.zip env.splitErrs).filterMap (fun p => p.2)).head? with
          | some e =>
            (some ("pre split table chunk failed, failed table detail please see logfile, error: [" ++ e ++ "]"),
              Ev.preChecked :: Ev.fetchedSCN :: splitEvs)
          | none =>
            let r := diffLoop targetSchema engine onlyCheckRows tbls
            (r.1, Ev.preChecked :: Ev.fetchedSCN :: (splitEvs ++ r.2))

/-- StartTableDiff (diff.go lines 266-280): the part (checkpoint) tables
are driven first; a failing part phase returns before the wait phase. -/
def StartTableDiffM (targetSchema : String) (engine : Engine) (onlyCheckRows : Bool)
    (partInfo waitInfo : List String) (partEnv waitEnv : CheckEnv) : Option String × List Ev :=
  let waitPhase : Option String × List Ev :=
    if waitInfo.isEmpty then (none, [])
    else startTableDiffCheckM false targetSchema engine onlyCheckRows waitEnv
  if partInfo.isEmpty then waitPhase
  else
    match startTableDiffCheckM true targetSchema engine onlyCheckRows partEnv with
    | (some e, evs) => (some e, evs)
    | (none, evs) => (waitPhase.1, evs ++ waitPhase.2)

/-- Events a chunk worker or the drain can record. -/
def isChunkEv : Ev → Bool
  | Ev.pushed _ => true
  | Ev.wroteFix _ => true
  | Ev.loggedError _ _ _ _ _ => true
  | Ev.deletedChunk _ _ _ => true
  | Ev.closedChannel => true
  | _ => false

/-- Events the per-table diff loop can record. -/
def isLoopEv : Ev → Bool
  | Ev.readDiffMeta _ _ => true
  | Ev.loggedTableFailure _ _ => true
  | Ev.markedDone _ _ => true
  | e => isChunkEv e

/-- Planner-side events: the snapshot fetch and the chunk splits. -/
def isPlanEv : Ev → Bool
  | Ev.fetchedSCN => true
  | Ev.splitChunk _ => true
  | _ => false

/-- The status update to done for a table. -/
def isMarkDoneEv : Ev → Bool
  | Ev.markedDone _ _ => true
  | _ => false

/-! Helper lemmas. -/

theorem strAppend_ne_empty_left (a b : String) (h : a ≠ "") : a ++ b ≠ "" := by
  intro hc
  apply h
  have hd : a.data ++ b.data = [] := by
    have hx := congrArg String.data hc
    rwa [String.data_append] at hx
  exact String.ext (List.append_eq_nil.mp hd).1

theorem strAppend_ne_empty_right (a b : String) (h : b ≠ "") : a ++ b ≠ "" := by
  intro hc
  apply h
  have hd : a.data ++ b.data = [] := by
    have hx := congrArg String.data hc
    rwa [String.data_append] at hx
  exact String.ext (List.append_eq_nil.mp hd).2

theorem mem_strsetDifference {a b : List String} {x : String} :
    x ∈ strsetDifference a b ↔ x ∈ a ∧ x ∉ b := by
  simp [strsetDifference, List.mem_filter, List.contains, List.elem_iff]

theorem crcDeleteStmts_eq_map (ts tbl : String) (cols : List String) :
    ∀ l : List String, (∀ t ∈ l, cols.length = (commaSplit t).length) →
      crcDeleteStmts ts tbl cols l = .ok (l.map (crcDeleteStmtFor ts tbl cols)) := by
  intro l
  induction l with
  | nil => intro _; rfl
  | cons t rest ih =>
    intro h
    have ht := h t (List.mem_cons_self t rest)
    have hr := ih (fun x hx => h x (List.mem_cons_of_mem _ hx))
    unfold crcDeleteStmts
    rw [if_neg (by simp [ht]), hr]
    rfl

theorem crcDeleteStmts_error_of_bad (ts tbl : String) (cols : List String) :
    ∀ l : List String, (∃ t ∈ l, cols.length ≠ (commaSplit t).length) →
      ∃ t ∈ l, cols.length ≠ (commaSplit t).length ∧
        crcDeleteStmts ts tbl cols l =
          .error (countMismatchMsg ts tbl cols.length ((commaSplit t).length)) := by
  intro l
  induction l with
  | nil => rintro ⟨t, ht, _⟩; simp at ht
  | cons t rest ih =>
    rintro ⟨u, hu, hbad⟩
    by_cases hc : cols.length ≠ (commaSplit t).length
    · refine ⟨t, List.mem_cons_self t rest, hc, ?_⟩
      unfold crcDeleteStmts
      rw [if_pos hc]
    · have hceq : cols.length = (commaSplit t).length := not_ne_iff.mp hc
      have hu' : u ∈ rest := by
        rcases List.mem_cons.mp hu with h | h
        · exact absurd hbad (by rw [h]; exact not_ne_iff.mpr hceq)
        · exact h
      obtain ⟨v, hv, hbadv, herr⟩ := ih ⟨u, hu', hbad⟩
      refine ⟨v, List.mem_cons_of_mem _ hv, hbadv, ?_⟩
      unfold crcDeleteStmts
      rw [if_neg hc, herr]

theorem foldl_semicolon_eq (l : List String) : ∀ a : String,
    l.foldl (fun acc s => acc ++ s ++ ";\n") a
      = a ++ stringsBuilder (l.map (fun s => s ++ ";\n")) := by
  induction l with
  | nil => intro a; simp [stringsBuilder]
  | cons s rest ih =>
    intro a
    simp only [List.foldl_cons, List.map_cons, stringsBuilder]
    rw [ih]
    simp [String.append_assoc]

theorem foldl_insert_eq (p : String) (l : List String) : ∀ a : String,
    l.foldl (fun acc s => acc ++ (p ++ s ++ ")") ++ ";\n") a
      = a ++ stringsBuilder (l.map (fun s => p ++ s ++ ");\n")) := by
  induction l with
  | nil => intro a; simp [stringsBuilder]
  | cons s rest ih =>
    intro a
    simp only [List.foldl_cons, List.map_cons, stringsBuilder]
    rw [ih]
    simp [show (");\n" : String) = ")" ++ ";\n" from rfl, String.append_assoc]

theorem crcDeleteHeader_ne_empty (ts : String) (dm : DataDiffMeta) (a b : Nat) :
    crcDeleteHeader ts dm a b ≠ "" := by
  unfold crcDeleteHeader
  exact strAppend_ne_empty_right _ _ (by decide)

theorem crcInsertHeader_ne_empty (ts : String) (dm : DataDiffMeta) (a b : Nat) :
    crcInsertHeader ts dm a b ≠ "" := by
  unfold crcInsertHeader
  exact strAppend_ne_empty_right _ _ (by decide)

theorem crcFixSQL_eq_spec (ts : String) (dm : DataDiffMeta) (ora mysql : DBSummary) :
    crcFixSQL ts dm ora mysql
      ((strsetDifference mysql.stringSet ora.stringSet).map
        (crcDeleteStmtFor ts dm.sourceTableName mysql.columns))
      = crcSpecFragment ts dm ora mysql := by
  unfold crcFixSQL crcSpecFragment
  congr 1
  · by_cases h : strsetDifference mysql.stringSet ora.stringSet = []
    · rw [if_pos h, if_pos h]
    · rw [if_neg h, if_neg h]
      congr 1
      rw [foldl_semicolon_eq, String.empty_append, List.map_map]
      rfl
  · by_cases h : strsetDifference ora.stringSet mysql.stringSet = []
    · rw [if_pos h, if_pos h]
    · rw [if_neg h, if_neg h]
      congr 1
      rw [foldl_insert_eq, String.empty_append]

theorem crcSpecFragment_empty_iff (ts : String) (dm : DataDiffMeta) (ora mysql : DBSummary) :
    crcSpecFragment ts dm ora mysql = "" ↔
      (strsetDifference mysql.stringSet ora.stringSet = [] ∧
       strsetDifference ora.stringSet mysql.stringSet = []) := by
  constructor
  · intro h
    by_cases h1 : strsetDifference mysql.stringSet ora.stringSet = []
    · by_cases h2 : strsetDifference ora.stringSet mysql.stringSet = []
      · exact ⟨h1, h2⟩
      · exfalso
        unfold crcSpecFragment at h
        rw [if_pos h1, if_neg h2, String.empty_append] at h
        exact strAppend_ne_empty_left _ _ (crcInsertHeader_ne_empty ts dm ora.crc32Val mysql.crc32Val) h
    · exfalso
      unfold crcSpecFragment at h
      rw [if_neg h1] at h
      exact strAppend_ne_empty_left _ _
        (strAppend_ne_empty_left _ _ (crcDeleteHeader_ne_empty ts dm ora.crc32Val mysql.crc32Val)) h
  · rintro ⟨h1, h2⟩
    unfold crcSpecFragment
    rw [if_pos h1, if_pos h2]
    rfl

theorem reportCheckCRC32Core_spec (ts : String) (dm : DataDiffMeta) (ora mysql : DBSummary)
    (hcrc : ora.crc32Val ≠ mysql.crc32Val)
    (hcount : ∀ t ∈ strsetDifference mysql.stringSet ora.stringSet,
      mysql.columns.length = ((commaSplit t).length)) :
    reportCheckCRC32Core ts dm ora mysql = .ok (crcSpecPushes ts dm ora mysql) := by
  unfold reportCheckCRC32Core
  rw [if_neg hcrc,
    crcDeleteStmts_eq_map ts dm.sourceTableName mysql.columns
      (strsetDifference mysql.stringSet ora.stringSet) hcount]
  simp only [crcFixSQL_eq_spec]
  by_cases h : strsetDifference mysql.stringSet ora.stringSet = [] ∧
      strsetDifference ora.stringSet mysql.stringSet = []
  · rw [if_pos ((crcSpecFragment_empty_iff ts dm ora mysql).mpr h)]
    unfold crcSpecPushes
    rw [if_pos h]
  · rw [if_neg (fun hc => h ((crcSpecFragment_empty_iff ts dm ora mysql).mp hc))]
    unfold crcSpecPushes
    rw [if_neg h]

/-- The XOR row-set digest of the spec-modelled adapters is not injective:
two disjoint two-row sets share one digest value, so equal CRC-32 values
do not imply equal canonical row sets. -/
theorem rowSetCrc32_xor_collision :
    rowSetCrc32 ["00", "01"] = rowSetCrc32 ["10", "11"]
    ∧ (["00", "01"] : List String) ≠ ["10", "11"] := by
  decide

/-- C1, counterexample: a chunk whose upstream row set is U = 00,01 and
downstream row set is D = 10,11 under the spec-modelled XOR digest gives
equal CRC-32 values, so reportCheckCRC32 returns on the equality branch
and emits no DELETE at all although D minus U has two rows; the claim as
stated demands one DELETE per row of D minus U for every chunk. -/
theorem c1_counterexample_crc_collision :
    reportCheckCRC32Core "M" ⟨"S", "T", "C1", "C1", "1=1", "", ""⟩
        ⟨["C1"], ["00", "01"], rowSetCrc32 ["00", "01"], 0⟩
        ⟨["C1"], ["10", "11"], rowSetCrc32 ["10", "11"], 0⟩ = .ok []
    ∧ strsetDifference ["10", "11"] ["00", "01"] = ["10", "11"] := by
  exact ⟨rfl, rfl⟩

/-- C1, amended: in CRC mode, for every chunk whose upstream and
downstream CRC-32 values differ, whose downstream-extra rows each split
into exactly the downstream column count, and whose downstream row set is
duplicate free, reportCheckCRC32 emits exactly one DELETE statement per
row of D minus U, exactly one INSERT statement per row of U minus D, and
no other SQL statements (the pushed fragment is the two optional headers
with exactly those statement lists). -/
theorem c1_amended_symmetric_diff (ts : String) (dm : DataDiffMeta) (ora mysql : DBSummary)
    (hcrc : ora.crc32Val ≠ mysql.crc32Val)
    (hcount : ∀ t ∈ strsetDifference mysql.stringSet ora.stringSet,
      mysql.columns.length = ((commaSplit t).length))
    (hnd : mysql.stringSet.Nodup) :
    crcDeleteStmts ts dm.sourceTableName mysql.columns
        (strsetDifference mysql.stringSet ora.stringSet)
      = .ok ((strsetDifference mysql.stringSet ora.stringSet).map
          (crcDeleteStmtFor ts dm.sourceTableName mysql.columns))
    ∧ (strsetDifference mysql.stringSet ora.stringSet).Nodup
    ∧ reportCheckCRC32Core ts dm ora mysql = .ok (crcSpecPushes ts dm ora mysql) :=
  ⟨crcDeleteStmts_eq_map ts dm.sourceTableName mysql.columns _ hcount,
   hnd.filter _,
   reportCheckCRC32Core_spec ts dm ora mysql hcrc hcount⟩

theorem c1_amended_symmetric_diff_witness :
    ((7 : Nat) ≠ 9
      ∧ (∀ t ∈ strsetDifference ["2"] ["1"], (["C1"] : List String).length = ((commaSplit t).length))
      ∧ (["2"] : List String).Nodup)
    ∧ (crcDeleteStmts "M" "T" ["C1"] (strsetDifference ["2"] ["1"])
        = .ok ((strsetDifference ["2"] ["1"]).map (crcDeleteStmtFor "M" "T" ["C1"]))
      ∧ (strsetDifference ["2"] ["1"]).Nodup
      ∧ reportCheckCRC32Core "M" ⟨"S", "T", "C1", "C1", "1=1", "", ""⟩
          ⟨["C1"], ["1"], 7, 0⟩ ⟨["C1"], ["2"], 9, 0⟩
        = .ok (crcSpecPushes "M" ⟨"S", "T", "C1", "C1", "1=1", "", ""⟩
            ⟨["C1"], ["1"], 7, 0⟩ ⟨["C1"], ["2"], 9, 0⟩)) :=
  ⟨⟨by decide, by decide, by decide⟩,
   c1_amended_symmetric_diff "M" ⟨"S", "T", "C1", "C1", "1=1", "", ""⟩
     ⟨["C1"], ["1"], 7, 0⟩ ⟨["C1"], ["2"], 9, 0⟩ (by decide) (by decide) (by decide)⟩

/-- C8, counterexample: under the spec-modelled XOR digest a chunk can
have equal CRC-32 values while a downstream-extra row exists whose
comma-split value count differs from the downstream column count; the
code then returns success on the CRC equality branch instead of failing
as the claim states. -/
theorem c8_counterexample_collision_no_error :
    reportCheckCRC32Core "M" ⟨"S", "T", "C1", "C1", "1=1", "", ""⟩
        ⟨["a", "b"], ["00", "01"], rowSetCrc32 ["00", "01"], 0⟩
        ⟨["a", "b"], ["10", "11"], rowSetCrc32 ["10", "11"], 0⟩ = .ok []
    ∧ "10" ∈ strsetDifference ["10", "11"] ["00", "01"]
    ∧ (["a", "b"] : List String).length ≠ (commaSplit "10").length := by
  exact ⟨rfl, by decide, by decide⟩

/-- C8, amended: in CRC mode, for every chunk whose CRC-32 values differ,
if some downstream-extra row has a comma-split value count different from
the downstream column count, reportCheckCRC32 fails with the error naming
the column count and that value count, and pushes no fragment. -/
theorem c8_amended_count_mismatch_error (ts : String) (dm : DataDiffMeta) (ora mysql : DBSummary)
    (hcrc : ora.crc32Val ≠ mysql.crc32Val)
    (hbad : ∃ t ∈ strsetDifference mysql.stringSet ora.stringSet,
      mysql.columns.length ≠ (commaSplit t).length) :
    (∃ t ∈ strsetDifference mysql.stringSet ora.stringSet,
      mysql.columns.length ≠ (commaSplit t).length ∧
        reportCheckCRC32Core ts dm ora mysql =
          .error (countMismatchMsg ts dm.sourceTableName mysql.columns.length
            ((commaSplit t).length)))
    ∧ pushesOf (reportCheckCRC32Core ts dm ora mysql) = [] := by
  obtain ⟨t, htm, hbadt, herr⟩ :=
    crcDeleteStmts_error_of_bad ts dm.sourceTableName mysql.columns
      (strsetDifference mysql.stringSet ora.stringSet) hbad
  have hcore : reportCheckCRC32Core ts dm ora mysql =
      .error (countMismatchMsg ts dm.sourceTableName mysql.columns.length
        ((commaSplit t).length)) := by
    unfold reportCheckCRC32Core
    rw [if_neg hcrc, herr]
  exact ⟨⟨t, htm, hbadt, hcore⟩, by rw [hcore]; rfl⟩

theorem c8_amended_count_mismatch_error_witness :
    ((1 : Nat) ≠ 2
      ∧ (∃ t ∈ strsetDifference ["z"] ["x,y"], (["a", "b"] : List String).length ≠ (commaSplit t).length))
    ∧ ((∃ t ∈ strsetDifference ["z"] ["x,y"],
        (["a", "b"] : List String).length ≠ (commaSplit t).length ∧
          reportCheckCRC32Core "M" ⟨"S", "T", "C1", "C1", "1=1", "", ""⟩
              ⟨["a", "b"], ["x,y"], 1, 0⟩ ⟨["a", "b"], ["z"], 2, 0⟩
            = .error (countMismatchMsg "M" "T" (["a", "b"] : List String).length
                ((commaSplit t).length)))
      ∧ pushesOf (reportCheckCRC32Core "M" ⟨"S", "T", "C1", "C1", "1=1", "", ""⟩
          ⟨["a", "b"], ["x,y"], 1, 0⟩ ⟨["a", "b"], ["z"], 2, 0⟩) = []) :=
  ⟨⟨by decide, by decide⟩,
   c8_amended_count_mismatch_error "M" ⟨"S", "T", "C1", "C1", "1=1", "", ""⟩
     ⟨["a", "b"], ["x,y"], 1, 0⟩ ⟨["a", "b"], ["z"], 2, 0⟩ (by decide) (by decide)⟩

/-- C10, counterexample: under the spec-modelled XOR digest two different
row sets can share one CRC-32 value; the code then pushes nothing although
the downstream-minus-upstream difference is non-empty, refuting the
claimed equivalence between pushing and a non-empty set difference. -/
theorem c10_counterexample_collision_no_push :
    pushesOf (reportCheckCRC32Core "M" ⟨"S", "T", "C1", "C1", "1=1", "", ""⟩
        ⟨["C1"], ["20", "21"], rowSetCrc32 ["20", "21"], 0⟩
        ⟨["C1"], ["30", "31"], rowSetCrc32 ["30", "31"], 0⟩) = []
    ∧ strsetDifference ["30", "31"] ["20", "21"] ≠ [] := by
  exact ⟨rfl, by decide⟩

/-- C10, amended: in CRC mode, for a chunk whose CRC-32 values differ and
whose downstream-extra rows all split into the downstream column count, a
fragment is pushed iff one of the two set differences is non-empty; and
whenever the two canonical row sets are equal, Report pushes nothing and
succeeds, whatever the CRC-32 values are. -/
theorem c10_amended_push_iff_diff_nonempty :
    (∀ (ts : String) (dm : DataDiffMeta) (ora mysql : DBSummary),
      ora.crc32Val ≠ mysql.crc32Val →
      (∀ t ∈ strsetDifference mysql.stringSet ora.stringSet,
        mysql.columns.length = ((commaSplit t).length)) →
      (pushesOf (reportCheckCRC32Core ts dm ora mysql) ≠ [] ↔
        (strsetDifference mysql.stringSet ora.stringSet ≠ [] ∨
         strsetDifference ora.stringSet mysql.stringSet ≠ [])))
    ∧ (∀ (ts : String) (dm : DataDiffMeta) (ora mysql : DBSummary),
        (∀ x : String, x ∈ ora.stringSet ↔ x ∈ mysql.stringSet) →
        reportCheckCRC32Core ts dm ora mysql = .ok []) := by
  constructor
  · intro ts dm ora mysql hcrc hcount
    rw [reportCheckCRC32Core_spec ts dm ora mysql hcrc hcount]
    unfold crcSpecPushes
    by_cases h : strsetDifference mysql.stringSet ora.stringSet = [] ∧
        strsetDifference ora.stringSet mysql.stringSet = []
    · rw [if_pos h]
      simp [pushesOf, h.1, h.2]
    · rw [if_neg h]
      simp only [pushesOf]
      constructor
      · intro _
        exact not_and_or.mp h
      · intro _
        simp
  · intro ts dm ora mysql hiff
    have h1 : strsetDifference mysql.stringSet ora.stringSet = [] := by
      unfold strsetDifference
      apply List.filter_eq_nil_iff.mpr
      intro x hx
      simp [List.contains, List.elem_iff, (hiff x).mpr hx]
    have h2 : strsetDifference ora.stringSet mysql.stringSet = [] := by
      unfold strsetDifference
      apply List.filter_eq_nil_iff.mpr
      intro x hx
      simp [List.contains, List.elem_iff, (hiff x).mp hx]
    by_cases hcrc : ora.crc32Val = mysql.crc32Val
    · unfold reportCheckCRC32Core
      rw [if_pos hcrc]
    · have hs := reportCheckCRC32Core_spec ts dm ora mysql hcrc
        (by rw [h1]; intro t ht; simp at ht)
      rw [hs]
      unfold crcSpecPushes
      rw [if_pos ⟨h1, h2⟩]

theorem c10_amended_push_iff_diff_nonempty_witness :
    ((7 : Nat) ≠ 9
      ∧ (∀ t ∈ strsetDifference ["2"] ["1"], (["C1"] : List String).length = ((commaSplit t).length)))
    ∧ (pushesOf (reportCheckCRC32Core "M" ⟨"S", "T", "C1", "C1", "1=1", "", ""⟩
          ⟨["C1"], ["1"], 7, 0⟩ ⟨["C1"], ["2"], 9, 0⟩) ≠ [] ↔
        (strsetDifference ["2"] ["1"] ≠ [] ∨ strsetDifference ["1"] ["2"] ≠ []))
    ∧ reportCheckCRC32Core "M" ⟨"S", "T", "C1", "C1", "1=1", "", ""⟩
        ⟨["C1"], ["1"], 7, 0⟩ ⟨["C1"], ["1"], 9, 0⟩ = .ok [] :=
  ⟨⟨by decide, by decide⟩,
   c10_amended_push_iff_diff_nonempty.1 "M" ⟨"S", "T", "C1", "C1", "1=1", "", ""⟩
     ⟨["C1"], ["1"], 7, 0⟩ ⟨["C1"], ["2"], 9, 0⟩ (by decide) (by decide),
   c10_amended_push_iff_diff_nonempty.2 "M" ⟨"S", "T", "C1", "C1", "1=1", "", ""⟩
     ⟨["C1"], ["1"], 7, 0⟩ ⟨["C1"], ["1"], 9, 0⟩ (fun _ => Iff.rfl)⟩

/-- C5: in CRC mode Report pushes at most one summary per invocation, and
pushes none when the two fetched CRC-32 values are equal. -/
theorem c5_report_at_most_one_push :
    (∀ (ts : String) (dm : DataDiffMeta) (engine : Engine),
      (pushesOf (Report ts dm engine false)).length ≤ 1)
    ∧ (∀ (ts : String) (dm : DataDiffMeta) (engine : Engine)
        (oraColumns oraSet : List String) (crc : Nat) (mysqlColumns mysqlSet : List String),
        engine.getOracleDataRowStrings (oraQueryOf dm) = .ok (oraColumns, oraSet, crc) →
        engine.getMySQLDataRowStrings (mysqlQueryOf ts dm) = .ok (mysqlColumns, mysqlSet, crc) →
        Report ts dm engine false = .ok []) := by
  have hcore : ∀ (ts : String) (dm : DataDiffMeta) (ora mysql : DBSummary),
      (pushesOf (reportCheckCRC32Core ts dm ora mysql)).length ≤ 1 := by
    intro ts dm ora mysql
    unfold reportCheckCRC32Core
    by_cases h : ora.crc32Val = mysql.crc32Val
    · rw [if_pos h]; simp [pushesOf]
    · rw [if_neg h]
      cases hd : crcDeleteStmts ts dm.sourceTableName mysql.columns
          (strsetDifference mysql.stringSet ora.stringSet) with
      | error e => simp [pushesOf]
      | ok stmts =>
        by_cases hf : crcFixSQL ts dm ora mysql stmts = ""
        · simp [pushesOf, hf]
        · simp [pushesOf, hf]
  constructor
  · intro ts dm engine
    unfold Report reportCheckCRC32
    rw [if_neg Bool.false_ne_true]
    cases ho : engine.getOracleDataRowStrings (oraQueryOf dm) with
    | error e => simp [pushesOf]
    | ok v =>
      obtain ⟨oc, os, ocrc⟩ := v
      cases hm : engine.getMySQLDataRowStrings (mysqlQueryOf ts dm) with
      | error e => simp [pushesOf]
      | ok w =>
        obtain ⟨mc, ms, mcrc⟩ := w
        exact hcore ts dm
          { columns := oc, stringSet := os, crc32Val := ocrc, rows := 0 }
          { columns := mc, stringSet := ms, crc32Val := mcrc, rows := 0 }
  · intro ts dm engine oc os crc mc ms h1 h2
    unfold Report reportCheckCRC32
    rw [if_neg Bool.false_ne_true, h1]
    simp only [h2]
    unfold reportCheckCRC32Core
    rw [if_pos rfl]

theorem c5_report_at_most_one_push_witness :
    (pushesOf (Report "M" ⟨"S", "T", "C1", "C1", "1=1", "", ""⟩
        ⟨fun _ => .ok (["c"], ["1"], 5), fun _ => .ok (["c"], ["1"], 5),
          fun _ => .ok 0, fun _ => .ok 0⟩ false)).length ≤ 1
    ∧ Report "M" ⟨"S", "T", "C1", "C1", "1=1", "", ""⟩
        ⟨fun _ => .ok (["c"], ["1"], 5), fun _ => .ok (["c"], ["1"], 5),
          fun _ => .ok 0, fun _ => .ok 0⟩ false = .ok [] :=
  ⟨c5_report_at_most_one_push.1 "M" ⟨"S", "T", "C1", "C1", "1=1", "", ""⟩
     ⟨fun _ => .ok (["c"], ["1"], 5), fun _ => .ok (["c"], ["1"], 5),
       fun _ => .ok 0, fun _ => .ok 0⟩,
   c5_report_at_most_one_push.2 "M" ⟨"S", "T", "C1", "C1", "1=1", "", ""⟩
     ⟨fun _ => .ok (["c"], ["1"], 5), fun _ => .ok (["c"], ["1"], 5),
       fun _ => .ok 0, fun _ => .ok 0⟩ ["c"] ["1"] 5 ["c"] ["1"] rfl rfl⟩

/-- C4, counterexample: with snapshot token 97531 and no other field
containing that text, neither chunk query contains the token, so the
upstream query is not built from the snapshot token as claimed. -/
theorem c4_counterexample_no_snapshot_token :
    (DataDiffMeta.mk "S" "T" "C1" "C1" "1=1" "" "97531").snapshotSCN = "97531"
    ∧ ¬ occursIn "97531" (oraQueryOf (DataDiffMeta.mk "S" "T" "C1" "C1" "1=1" "" "97531"))
    ∧ ¬ occursIn "97531" (mysqlQueryOf "M" (DataDiffMeta.mk "S" "T" "C1" "C1" "1=1" "" "97531")) := by
  exact ⟨rfl, by decide, by decide⟩

/-- C4, amended: both chunk queries select the projection list from the
schema-qualified table with the range as WHERE clause, carry an ORDER BY
number column DESC suffix exactly when number_column is non-empty, and
neither query depends on the snapshot token at all. -/
theorem c4_amended_query_construction (ts : String) (dm : DataDiffMeta) :
    oraQueryOf dm
      = "SELECT " ++ dm.sourceColumnInfo ++ " FROM " ++ dm.sourceSchemaName ++ "." ++
          dm.sourceTableName ++ " WHERE " ++ dm.range ++
          (if dm.numberColumn = "" then "" else " ORDER BY " ++ dm.numberColumn ++ " DESC")
    ∧ mysqlQueryOf ts dm
      = "SELECT " ++ dm.targetColumnInfo ++ " FROM " ++ ts ++ "." ++
          dm.sourceTableName ++ " WHERE " ++ dm.range ++
          (if dm.numberColumn = "" then "" else " ORDER BY " ++ dm.numberColumn ++ " DESC")
    ∧ oraQueryOf { dm with snapshotSCN := "" } = oraQueryOf dm
    ∧ mysqlQueryOf ts { dm with snapshotSCN := "" } = mysqlQueryOf ts dm := by
  obtain ⟨s1, s2, s3, s4, s5, s6, s7⟩ := dm
  refine ⟨?_, ?_, rfl, rfl⟩ <;>
    by_cases h : s6 = "" <;>
      simp [oraQueryOf, mysqlQueryOf, stringsBuilder, h, String.append_assoc]

/-! Trace-model helper lemmas. -/

theorem workerFinish_ret_none_closed (c : ChunkTask) (evs : List Ev)
    (h : (workerFinish c evs).1 = none) :
    Ev.closedChannel ∈ (workerFinish c evs).2 := by
  cases hde : c.deleteErr with
  | none => simp [workerFinish, hde]
  | some de =>
    cases hie : c.insertAfterDeleteErr with
    | some ie => simp [workerFinish, hde, hie] at h
    | none => simp [workerFinish, hde, hie]

theorem workerRun_ret_none_closed (ts : String) (engine : Engine) (ocr : Bool) (c : ChunkTask)
    (h : (workerRun ts engine ocr c).1 = none) :
    Ev.closedChannel ∈ (workerRun ts engine ocr c).2 := by
  unfold workerRun at h ⊢
  cases hr : Report ts.toUpper c.meta engine ocr with
  | ok pushes =>
    rw [hr] at h
    exact workerFinish_ret_none_closed c _ h
  | error e =>
    rw [hr] at h
    cases hie : c.insertAfterReportErr with
    | some ie => rw [hie] at h; simp at h
    | none =>
      rw [hie] at h
      exact workerFinish_ret_none_closed c _ h

theorem workerRun_ret_none_of (ts : String) (engine : Engine) (ocr : Bool) (c : ChunkTask)
    (hdel : c.deleteErr = none)
    (hins : (∃ e, Report ts.toUpper c.meta engine ocr = .error e) → c.insertAfterReportErr = none) :
    (workerRun ts engine ocr c).1 = none := by
  unfold workerRun
  cases hr : Report ts.toUpper c.meta engine ocr with
  | ok pushes => simp [workerFinish, hdel]
  | error e =>
    rw [hins ⟨e, hr⟩]
    simp [workerFinish, hdel]

theorem workerFinish_evs_chunk (c : ChunkTask) (evs : List Ev)
    (h : ∀ e ∈ evs, isChunkEv e = true) :
    ∀ e ∈ (workerFinish c evs).2, isChunkEv e = true := by
  intro e he
  cases hde : c.deleteErr with
  | none =>
    simp only [workerFinish, hde] at he
    rcases List.mem_append.mp he with h1 | h2
    · exact h e h1
    · simp at h2
      rcases h2 with rfl | rfl <;> rfl
  | some de =>
    cases hie : c.insertAfterDeleteErr with
    | some ie =>
      simp only [workerFinish, hde, hie] at he
      exact h e he
    | none =>
      simp only [workerFinish, hde, hie] at he
      rcases List.mem_append.mp he with h1 | h2
      · exact h e h1
      · simp at h2
        rcases h2 with rfl | rfl <;> rfl

theorem workerRun_evs_chunk (ts : String) (engine : Engine) (ocr : Bool) (c : ChunkTask) :
    ∀ e ∈ (workerRun ts engine ocr c).2, isChunkEv e = true := by
  intro e he
  unfold workerRun at he
  cases hr : Report ts.toUpper c.meta engine ocr with
  | ok pushes =>
    rw [hr] at he
    refine workerFinish_evs_chunk c _ ?_ e he
    intro x hx
    obtain ⟨r, _, rfl⟩ := List.mem_map.mp hx
    rfl
  | error err =>
    rw [hr] at he
    cases hie : c.insertAfterReportErr with
    | some ie => rw [hie] at he; simp at he
    | none =>
      rw [hie] at he
      refine workerFinish_evs_chunk c _ ?_ e he
      intro x hx
      simp at hx
      subst hx
      rfl

theorem tableRun_evs_chunk (ts : String) (engine : Engine) (ocr : Bool) (chunks : List ChunkTask) :
    ∀ e ∈ (tableRun ts engine ocr chunks).2, isChunkEv e = true := by
  intro e he
  simp only [tableRun] at he
  rcases List.mem_append.mp he with h1 | h2
  · obtain ⟨l, hl, hel⟩ := List.mem_flatten.mp h1
    obtain ⟨r, hr, rfl⟩ := List.mem_map.mp hl
    obtain ⟨c, hc, rfl⟩ := List.mem_map.mp hr
    exact workerRun_evs_chunk ts engine ocr c e hel
  · obtain ⟨x, _, hxe⟩ := List.mem_filterMap.mp h2
    cases x <;> simp at hxe
    rw [← hxe]
    rfl

theorem tableRun_ret_none (ts : String) (engine : Engine) (ocr : Bool) (chunks : List ChunkTask)
    (h : ∀ c ∈ chunks, (workerRun ts engine ocr c).1 = none) :
    (tableRun ts engine ocr chunks).1 = none := by
  simp only [tableRun]
  have hnil : (chunks.map (workerRun ts engine ocr)).filterMap Prod.fst = [] := by
    apply List.filterMap_eq_nil_iff.mpr
    intro r hr
    obtain ⟨c, hc, rfl⟩ := List.mem_map.mp hr
    exact h c hc
  rw [hnil]
  rfl

theorem countP_le_count_closed (rs : List (Option String × List Ev))
    (h : ∀ r ∈ rs, r.1 = none → Ev.closedChannel ∈ r.2) :
    rs.countP (fun r => r.1.isNone) ≤ ((rs.map Prod.snd).flatten).count Ev.closedChannel := by
  induction rs with
  | nil => simp
  | cons r rest ih =>
    have ih' := ih (fun x hx hnone => h x (List.mem_cons_of_mem _ hx) hnone)
    simp only [List.map_cons, List.flatten_cons, List.count_append, List.countP_cons]
    cases hr1 : r.1 with
    | some e =>
      simp [hr1]
      omega
    | none =>
      have hc : Ev.closedChannel ∈ r.2 := h r (List.mem_cons_self r rest) hr1
      have h1 : 0 < r.2.count Ev.closedChannel := List.count_pos_iff.mpr hc
      simp [hr1]
      omega

theorem isChunkEv_not_markDone (e : Ev) (h : isChunkEv e = true) : isMarkDoneEv e = false := by
  cases e <;> simp [isChunkEv, isMarkDoneEv] at h ⊢

theorem isLoopEv_of_chunk (e : Ev) (h : isChunkEv e = true) : isLoopEv e = true := by
  cases e <;> simp [isChunkEv, isLoopEv] at h ⊢

theorem isLoopEv_not_plan (e : Ev) (h : isLoopEv e = true) : isPlanEv e = false := by
  cases e <;> simp [isLoopEv, isChunkEv, isPlanEv] at h ⊢

theorem diffLoop_evs_loop (ts : String) (engine : Engine) (ocr : Bool) :
    ∀ tbls : List TableEnv, ∀ e ∈ (diffLoop ts engine ocr tbls).2, isLoopEv e = true := by
  intro tbls
  induction tbls with
  | nil => intro e he; simp [diffLoop] at he
  | cons t rest ih =>
    intro e he
    simp only [diffLoop] at he
    split at he
    · simp at he
      rw [he]
      rfl
    · split at he
      · rcases List.mem_append.mp he with h1 | h2
        · rcases List.mem_cons.mp h1 with rfl | h1'
          · rfl
          · exact isLoopEv_of_chunk e (tableRun_evs_chunk ts engine ocr _ e h1')
        · rcases List.mem_cons.mp h2 with rfl | h3
          · rfl
          · exact ih e h3
      · split at he
        · rcases List.mem_cons.mp he with rfl | he2
          · rfl
          · exact isLoopEv_of_chunk e (tableRun_evs_chunk ts engine ocr _ e he2)
        · rcases List.mem_append.mp he with h1 | h2
          · rcases List.mem_cons.mp h1 with rfl | h1'
            · rfl
            · exact isLoopEv_of_chunk e (tableRun_evs_chunk ts engine ocr _ e h1')
          · rcases List.mem_cons.mp h2 with rfl | h3
            · rfl
            · exact ih e h3

theorem diffLoop_reads_head (ts : String) (engine : Engine) (ocr : Bool)
    (t : TableEnv) (rest : List TableEnv) :
    Ev.readDiffMeta t.schema t.table ∈ (diffLoop ts engine ocr (t :: rest)).2 := by
  simp only [diffLoop]
  split
  · simp
  · split
    · simp
    · split
      · simp
      · simp

/-- C2, counterexample: a worker whose Report fails and whose
table_error_detail insert also fails returns its error without ever
calling close on the shared channel, so not every worker task calls close
before returning. -/
theorem c2_counterexample_no_close_on_error_path :
    Ev.closedChannel ∉ (workerRun "m"
        ⟨fun _ => .error "conn refused", fun _ => .error "conn refused",
          fun _ => .error "conn refused", fun _ => .error "conn refused"⟩ false
        ⟨⟨"S", "T", "C1", "C1", "1=1", "", ""⟩, some "insert failed", none, none⟩).2
    ∧ (workerRun "m"
        ⟨fun _ => .error "conn refused", fun _ => .error "conn refused",
          fun _ => .error "conn refused", fun _ => .error "conn refused"⟩ false
        ⟨⟨"S", "T", "C1", "C1", "1=1", "", ""⟩, some "insert failed", none, none⟩).1 ≠ none := by
  exact ⟨by decide, by decide⟩

/-- C2, amended: every per-chunk worker that returns nil has called close
on the shared per-table result channel, and for every table where at
least two workers return nil, close is invoked at least twice on the same
channel (in Go a second close of one channel panics). -/
theorem c2_amended_close_on_completion :
    (∀ (ts : String) (engine : Engine) (ocr : Bool) (c : ChunkTask),
      (workerRun ts engine ocr c).1 = none → Ev.closedChannel ∈ (workerRun ts engine ocr c).2)
    ∧ (∀ (ts : String) (engine : Engine) (ocr : Bool) (chunks : List ChunkTask),
        2 ≤ (chunks.map (workerRun ts engine ocr)).countP (fun r => r.1.isNone) →
        2 ≤ (tableRun ts engine ocr chunks).2.count Ev.closedChannel) := by
  constructor
  · exact workerRun_ret_none_closed
  · intro ts engine ocr chunks h2
    have hall : ∀ r ∈ chunks.map (workerRun ts engine ocr),
        r.1 = none → Ev.closedChannel ∈ r.2 := by
      intro r hr hn
      obtain ⟨c, hc, rfl⟩ := List.mem_map.mp hr
      exact workerRun_ret_none_closed ts engine ocr c hn
    have hle := countP_le_count_closed (chunks.map (workerRun ts engine ocr)) hall
    have heq : (tableRun ts engine ocr chunks).2.count Ev.closedChannel
        = ((chunks.map (workerRun ts engine ocr)).map Prod.snd).flatten.count Ev.closedChannel
          + (((chunks.map (workerRun ts engine ocr)).map Prod.snd).flatten.filterMap
              (fun e => match e with
                | Ev.pushed r => some (Ev.wroteFix (drainRender ocr r))
                | _ => none)).count Ev.closedChannel := by
      simp only [tableRun, List.count_append]
    omega

theorem c2_amended_close_on_completion_witness :
    ((workerRun "m"
        ⟨fun _ => .ok (["c"], ["1"], 5), fun _ => .ok (["c"], ["1"], 5),
          fun _ => .ok 0, fun _ => .ok 0⟩ false
        ⟨⟨"S", "T", "C1", "C1", "1=1", "", ""⟩, none, none, none⟩).1 = none
      ∧ 2 ≤ (([⟨⟨"S", "T", "C1", "C1", "1=1", "", ""⟩, none, none, none⟩,
            ⟨⟨"S", "T", "C1", "C1", "2=2", "", ""⟩, none, none, none⟩] : List ChunkTask).map
            (workerRun "m" ⟨fun _ => .ok (["c"], ["1"], 5), fun _ => .ok (["c"], ["1"], 5),
              fun _ => .ok 0, fun _ => .ok 0⟩ false)).countP (fun r => r.1.isNone))
    ∧ (Ev.closedChannel ∈ (workerRun "m"
        ⟨fun _ => .ok (["c"], ["1"], 5), fun _ => .ok (["c"], ["1"], 5),
          fun _ => .ok 0, fun _ => .ok 0⟩ false
        ⟨⟨"S", "T", "C1", "C1", "1=1", "", ""⟩, none, none, none⟩).2
      ∧ 2 ≤ (tableRun "m"
          ⟨fun _ => .ok (["c"], ["1"], 5), fun _ => .ok (["c"], ["1"], 5),
            fun _ => .ok 0, fun _ => .ok 0⟩ false
          [⟨⟨"S", "T", "C1", "C1", "1=1", "", ""⟩, none, none, none⟩,
            ⟨⟨"S", "T", "C1", "C1", "2=2", "", ""⟩, none, none, none⟩]).2.count Ev.closedChannel) :=
  ⟨⟨by decide, by decide⟩,
   c2_amended_close_on_completion.1 "m"
     ⟨fun _ => .ok (["c"], ["1"], 5), fun _ => .ok (["c"], ["1"], 5),
       fun _ => .ok 0, fun _ => .ok 0⟩ false
     ⟨⟨"S", "T", "C1", "C1", "1=1", "", ""⟩, none, none, none⟩ (by decide),
   c2_amended_close_on_completion.2 "m"
     ⟨fun _ => .ok (["c"], ["1"], 5), fun _ => .ok (["c"], ["1"], 5),
       fun _ => .ok 0, fun _ => .ok 0⟩ false
     [⟨⟨"S", "T", "C1", "C1", "1=1", "", ""⟩, none, none, none⟩,
       ⟨⟨"S", "T", "C1", "C1", "2=2", "", ""⟩, none, none, none⟩] (by decide)⟩

/-- C3, counterexample: a chunk whose Report fails (upstream fetch error),
with the error-record insert and the chunk delete both succeeding, has its
data_diff_meta row deleted all the same: the delete at diff.go line 384 is
not guarded by the Report outcome, so the claimed non-deletion is false. -/
theorem c3_counterexample_failed_chunk_deleted :
    Report ("m".toUpper) ⟨"S", "T", "C1", "C1", "1=1", "", ""⟩
        ⟨fun _ => .error "boom", fun _ => .error "boom",
          fun _ => .error "boom", fun _ => .error "boom"⟩ false
      = .error "get oracle data row strings failed: boom"
    ∧ Ev.deletedChunk "S" "T" "1=1" ∈ (workerRun "m"
        ⟨fun _ => .error "boom", fun _ => .error "boom",
          fun _ => .error "boom", fun _ => .error "boom"⟩ false
        ⟨⟨"S", "T", "C1", "C1", "1=1", "", ""⟩, none, none, none⟩).2 := by
  exact ⟨rfl, by decide⟩

/-- C3, amended: for every chunk whose Report fails and whose Failed
record insert succeeds, the worker logs the Failed record, and then still
attempts the data_diff_meta delete: when the delete succeeds the chunk
row is deleted and the worker returns nil, so a subsequent resume does
not re-process that chunk. -/
theorem c3_amended_chunk_deleted_despite_failure (ts : String) (engine : Engine) (ocr : Bool)
    (c : ChunkTask) (e : String)
    (hrep : Report ts.toUpper c.meta engine ocr = .error e)
    (hins : c.insertAfterReportErr = none) :
    Ev.loggedError c.meta.sourceSchemaName c.meta.sourceTableName "Failed" (metaDetail c.meta)
        ("data diff record report failed: " ++ e) ∈ (workerRun ts engine ocr c).2
    ∧ (c.deleteErr = none →
        Ev.deletedChunk c.meta.sourceSchemaName c.meta.sourceTableName c.meta.range
            ∈ (workerRun ts engine ocr c).2
          ∧ (workerRun ts engine ocr c).1 = none) := by
  have hw : workerRun ts engine ocr c
      = workerFinish c [Ev.loggedError c.meta.sourceSchemaName c.meta.sourceTableName "Failed"
          (metaDetail c.meta) ("data diff record report failed: " ++ e)] := by
    unfold workerRun
    rw [hrep, hins]
  rw [hw]
  constructor
  · cases hde : c.deleteErr with
    | none => simp [workerFinish, hde]
    | some de =>
      cases hie : c.insertAfterDeleteErr with
      | some ie => simp [workerFinish, hde, hie]
      | none => simp [workerFinish, hde, hie]
  · intro hdel
    exact ⟨by simp [workerFinish, hdel], by simp [workerFinish, hdel]⟩

theorem c3_amended_chunk_deleted_despite_failure_witness :
    (Report ("m".toUpper) ⟨"S", "T", "C1", "C1", "1=1", "", ""⟩
        ⟨fun _ => .error "boom", fun _ => .error "boom",
          fun _ => .error "boom", fun _ => .error "boom"⟩ false
      = .error "get oracle data row strings failed: boom"
      ∧ (none : Option String) = none)
    ∧ (Ev.loggedError "S" "T" "Failed" (metaDetail ⟨"S", "T", "C1", "C1", "1=1", "", ""⟩)
          ("data diff record report failed: " ++ "get oracle data row strings failed: boom")
        ∈ (workerRun "m"
            ⟨fun _ => .error "boom", fun _ => .error "boom",
              fun _ => .error "boom", fun _ => .error "boom"⟩ false
            ⟨⟨"S", "T", "C1", "C1", "1=1", "", ""⟩, none, none, none⟩).2
      ∧ ((none : Option String) = none →
          Ev.deletedChunk "S" "T" "1=1" ∈ (workerRun "m"
              ⟨fun _ => .error "boom", fun _ => .error "boom",
                fun _ => .error "boom", fun _ => .error "boom"⟩ false
              ⟨⟨"S", "T", "C1", "C1", "1=1", "", ""⟩, none, none, none⟩).2
            ∧ (workerRun "m"
                ⟨fun _ => .error "boom", fun _ => .error "boom",
                  fun _ => .error "boom", fun _ => .error "boom"⟩ false
                ⟨⟨"S", "T", "C1", "C1", "1=1", "", ""⟩, none, none, none⟩).1 = none)) :=
  ⟨⟨rfl, rfl⟩,
   c3_amended_chunk_deleted_despite_failure "m"
     ⟨fun _ => .error "boom", fun _ => .error "boom",
       fun _ => .error "boom", fun _ => .error "boom"⟩ false
     ⟨⟨"S", "T", "C1", "C1", "1=1", "", ""⟩, none, none, none⟩
     "get oracle data row strings failed: boom" rfl rfl⟩

/-- C6: for a table whose failing chunks all get their Failed record
inserted and whose chunk deletions all succeed, every worker returns nil,
the work group Wait returns nil, and (when the status update itself
succeeds) the table is marked done despite the failed comparisons. -/
theorem c6_failed_chunks_still_mark_done (ts : String) (engine : Engine) (ocr : Bool)
    (t : TableEnv) (rest : List TableEnv) (chunks : List ChunkTask)
    (hch : t.chunksResult = .ok chunks)
    (hins : ∀ c ∈ chunks, (∃ e, Report ts.toUpper c.meta engine ocr = .error e) →
      c.insertAfterReportErr = none)
    (hdel : ∀ c ∈ chunks, c.deleteErr = none)
    (hmod : t.modifyErr = none) :
    (∀ c ∈ chunks, (workerRun ts engine ocr c).1 = none)
    ∧ (tableRun ts engine ocr chunks).1 = none
    ∧ Ev.markedDone t.schema t.table ∈ (diffLoop ts engine ocr (t :: rest)).2 := by
  have hworkers : ∀ c ∈ chunks, (workerRun ts engine ocr c).1 = none :=
    fun c hc => workerRun_ret_none_of ts engine ocr c (hdel c hc) (hins c hc)
  have htab : (tableRun ts engine ocr chunks).1 = none :=
    tableRun_ret_none ts engine ocr chunks hworkers
  refine ⟨hworkers, htab, ?_⟩
  simp only [diffLoop, hch, htab, hmod]
  simp

theorem c6_failed_chunks_still_mark_done_witness :
    ((∀ c ∈ ([⟨⟨"S", "T", "C1", "C1", "1=1", "", ""⟩, none, none, none⟩] : List ChunkTask),
        (∃ e, Report "m".toUpper c.meta
          ⟨fun _ => .error "boom", fun _ => .error "boom",
            fun _ => .error "boom", fun _ => .error "boom"⟩ false = .error e) →
        c.insertAfterReportErr = none)
      ∧ (∀ c ∈ ([⟨⟨"S", "T", "C1", "C1", "1=1", "", ""⟩, none, none, none⟩] : List ChunkTask),
          c.deleteErr = none))
    ∧ ((∀ c ∈ ([⟨⟨"S", "T", "C1", "C1", "1=1", "", ""⟩, none, none, none⟩] : List ChunkTask),
        (workerRun "m" ⟨fun _ => .error "boom", fun _ => .error "boom",
          fun _ => .error "boom", fun _ => .error "boom"⟩ false c).1 = none)
      ∧ (tableRun "m" ⟨fun _ => .error "boom", fun _ => .error "boom",
          fun _ => .error "boom", fun _ => .error "boom"⟩ false
          [⟨⟨"S", "T", "C1", "C1", "1=1", "", ""⟩, none, none, none⟩]).1 = none
      ∧ Ev.markedDone "S" "T" ∈ (diffLoop "m"
          ⟨fun _ => .error "boom", fun _ => .error "boom",
            fun _ => .error "boom", fun _ => .error "boom"⟩ false
          [⟨"S", "T", .ok [⟨⟨"S", "T", "C1", "C1", "1=1", "", ""⟩, none, none, none⟩], none⟩]).2) :=
  ⟨⟨by intro c hc _; simp at hc; subst hc; rfl,
    by intro c hc; simp at hc; subst hc; rfl⟩,
   c6_failed_chunks_still_mark_done "m"
     ⟨fun _ => .error "boom", fun _ => .error "boom",
       fun _ => .error "boom", fun _ => .error "boom"⟩ false
     ⟨"S", "T", .ok [⟨⟨"S", "T", "C1", "C1", "1=1", "", ""⟩, none, none, none⟩], none⟩ []
     [⟨⟨"S", "T", "C1", "C1", "1=1", "", ""⟩, none, none, none⟩] rfl
     (by intro c hc _; simp at hc; subst hc; rfl)
     (by intro c hc; simp at hc; subst hc; rfl) rfl⟩

/-- C7: a table whose work group returns an error is logged and skipped:
the loop result is the result of the remaining tables, the trace appends
the table-failure log and continues, and no markedDone event for that
table appears among the events this table produced. -/
theorem c7_group_error_continue_no_markdone (ts : String) (engine : Engine) (ocr : Bool)
    (t : TableEnv) (rest : List TableEnv) (chunks : List ChunkTask)
    (hch : t.chunksResult = .ok chunks)
    (herr : (tableRun ts engine ocr chunks).1 ≠ none) :
    (diffLoop ts engine ocr (t :: rest)).1 = (diffLoop ts engine ocr rest).1
    ∧ (diffLoop ts engine ocr (t :: rest)).2
        = (Ev.readDiffMeta t.schema t.table :: (tableRun ts engine ocr chunks).2)
            ++ Ev.loggedTableFailure t.schema t.table :: (diffLoop ts engine ocr rest).2
    ∧ (∀ e ∈ (Ev.readDiffMeta t.schema t.table :: (tableRun ts engine ocr chunks).2)
          ++ [Ev.loggedTableFailure t.schema t.table], isMarkDoneEv e = false) := by
  obtain ⟨err, herr'⟩ := Option.ne_none_iff_exists'.mp herr
  refine ⟨?_, ?_, ?_⟩
  · simp only [diffLoop, hch, herr']
  · simp only [diffLoop, hch, herr']
  · intro e he
    rcases List.mem_append.mp he with h1 | h2
    · rcases List.mem_cons.mp h1 with rfl | h1'
      · rfl
      · exact isChunkEv_not_markDone e (tableRun_evs_chunk ts engine ocr chunks e h1')
    · simp at h2
      rw [h2]
      rfl

theorem c7_group_error_continue_no_markdone_witness :
    (((Except.ok [⟨⟨"S", "T", "C1", "C1", "1=1", "", ""⟩, some "ins boom", none, none⟩]
          : Except String (List ChunkTask))
        = Except.ok [⟨⟨"S", "T", "C1", "C1", "1=1", "", ""⟩, some "ins boom", none, none⟩])
      ∧ (tableRun "m" ⟨fun _ => .error "boom", fun _ => .error "boom",
          fun _ => .error "boom", fun _ => .error "boom"⟩ false
          [⟨⟨"S", "T", "C1", "C1", "1=1", "", ""⟩, some "ins boom", none, none⟩]).1 ≠ none)
    ∧ ((diffLoop "m" ⟨fun _ => .error "boom", fun _ => .error "boom",
          fun _ => .error "boom", fun _ => .error "boom"⟩ false
          [⟨"S", "T", .ok [⟨⟨"S", "T", "C1", "C1", "1=1", "", ""⟩, some "ins boom", none, none⟩], none⟩]).1
        = (diffLoop "m" ⟨fun _ => .error "boom", fun _ => .error "boom",
            fun _ => .error "boom", fun _ => .error "boom"⟩ false []).1
      ∧ (diffLoop "m" ⟨fun _ => .error "boom", fun _ => .error "boom",
            fun _ => .error "boom", fun _ => .error "boom"⟩ false
            [⟨"S", "T", .ok [⟨⟨"S", "T", "C1", "C1", "1=1", "", ""⟩, some "ins boom", none, none⟩], none⟩]).2
          = (Ev.readDiffMeta "S" "T" :: (tableRun "m"
              ⟨fun _ => .error "boom", fun _ => .error "boom",
                fun _ => .error "boom", fun _ => .error "boom"⟩ false
              [⟨⟨"S", "T", "C1", "C1", "1=1", "", ""⟩, some "ins boom", none, none⟩]).2)
              ++ Ev.loggedTableFailure "S" "T" :: (diffLoop "m"
                ⟨fun _ => .error "boom", fun _ => .error "boom",
                  fun _ => .error "boom", fun _ => .error "boom"⟩ false []).2
      ∧ (∀ e ∈ (Ev.readDiffMeta "S" "T" :: (tableRun "m"
            ⟨fun _ => .error "boom", fun _ => .error "boom",
              fun _ => .error "boom", fun _ => .error "boom"⟩ false
            [⟨⟨"S", "T", "C1", "C1", "1=1", "", ""⟩, some "ins boom", none, none⟩]).2)
            ++ [Ev.loggedTableFailure "S" "T"], isMarkDoneEv e = false)) :=
  ⟨⟨rfl, by decide⟩,
   c7_group_error_continue_no_markdone "m"
     ⟨fun _ => .error "boom", fun _ => .error "boom",
       fun _ => .error "boom", fun _ => .error "boom"⟩ false
     ⟨"S", "T", .ok [⟨⟨"S", "T", "C1", "C1", "1=1", "", ""⟩, some "ins boom", none, none⟩], none⟩ []
     [⟨⟨"S", "T", "C1", "C1", "1=1", "", ""⟩, some "ins boom", none, none⟩] rfl (by decide)⟩

theorem checkpointPhase_no_plan (ts : String) (engine : Engine) (ocr : Bool) (env : CheckEnv) :
    ∀ e ∈ (startTableDiffCheckM true ts engine ocr env).2, isPlanEv e = false := by
  intro e he
  cases hpre : env.preCheckErr with
  | some err =>
    simp only [startTableDiffCheckM, hpre] at he
    simp at he
    rw [he]
    rfl
  | none =>
    cases htab : env.tables with
    | error err =>
      simp only [startTableDiffCheckM, hpre, htab] at he
      simp at he
      rw [he]
      rfl
    | ok tbls =>
      simp only [startTableDiffCheckM, hpre, htab] at he
      simp at he
      rcases he with rfl | h2
      · rfl
      · exact isLoopEv_not_plan e (diffLoop_evs_loop ts engine ocr tbls e h2)

/-- C9: StartTableDiff drives the part (checkpoint) tables first: the full
trace starts with the checkpoint-phase trace, that phase records no
snapshot fetch and no chunk split (the Planner is never invoked), and it
reads the persisted data_diff_meta chunks of its first table. -/
theorem c9_part_tables_first_no_planner (ts : String) (engine : Engine) (ocr : Bool)
    (partInfo waitInfo : List String) (partEnv waitEnv : CheckEnv)
    (hp : partInfo ≠ []) :
    (∃ tail, (StartTableDiffM ts engine ocr partInfo waitInfo partEnv waitEnv).2
        = (startTableDiffCheckM true ts engine ocr partEnv).2 ++ tail)
    ∧ (∀ e ∈ (startTableDiffCheckM true ts engine ocr partEnv).2, isPlanEv e = false)
    ∧ (∀ (t : TableEnv) (tbls : List TableEnv), partEnv.preCheckErr = none →
        partEnv.tables = .ok (t :: tbls) →
        Ev.readDiffMeta t.schema t.table ∈ (startTableDiffCheckM true ts engine ocr partEnv).2) := by
  refine ⟨?_, checkpointPhase_no_plan ts engine ocr partEnv, ?_⟩
  · have hpe : partInfo.isEmpty = false := by
      cases partInfo with
      | nil => exact absurd rfl hp
      | cons a l => rfl
    simp only [StartTableDiffM, hpe, Bool.false_eq_true, if_false]
    cases hres : startTableDiffCheckM true ts engine ocr partEnv with
    | mk r evs =>
      cases r with
      | some err => exact ⟨[], by simp⟩
      | none => exact ⟨_, rfl⟩
  · intro t tbls hpc htab
    have hshape : (startTableDiffCheckM true ts engine ocr partEnv).2
        = Ev.preChecked :: (diffLoop ts engine ocr (t :: tbls)).2 := by
      simp [startTableDiffCheckM, hpc, htab]
    rw [hshape]
    exact List.mem_cons_of_mem _ (diffLoop_reads_head ts engine ocr t tbls)

theorem c9_part_tables_first_no_planner_witness :
    ((["T"] : List String) ≠ [])
    ∧ ((∃ tail, (StartTableDiffM "m"
          ⟨fun _ => .error "boom", fun _ => .error "boom",
            fun _ => .error "boom", fun _ => .error "boom"⟩ false ["T"] []
          ⟨none, .ok [⟨"S", "T", .ok [], none⟩], .ok 0, []⟩
          ⟨none, .ok [], .ok 0, []⟩).2
        = (startTableDiffCheckM true "m"
            ⟨fun _ => .error "boom", fun _ => .error "boom",
              fun _ => .error "boom", fun _ => .error "boom"⟩ false
            ⟨none, .ok [⟨"S", "T", .ok [], none⟩], .ok 0, []⟩).2 ++ tail)
      ∧ (∀ e ∈ (startTableDiffCheckM true "m"
            ⟨fun _ => .error "boom", fun _ => .error "boom",
              fun _ => .error "boom", fun _ => .error "boom"⟩ false
            ⟨none, .ok [⟨"S", "T", .ok [], none⟩], .ok 0, []⟩).2, isPlanEv e = false)
      ∧ (∀ (t : TableEnv) (tbls : List TableEnv),
          (⟨none, .ok [⟨"S", "T", .ok [], none⟩], .ok 0, []⟩ : CheckEnv).preCheckErr = none →
          (⟨none, .ok [⟨"S", "T", .ok [], none⟩], .ok 0, []⟩ : CheckEnv).tables = .ok (t :: tbls) →
          Ev.readDiffMeta t.schema t.table ∈ (startTableDiffCheckM true "m"
            ⟨fun _ => .error "boom", fun _ => .error "boom",
              fun _ => .error "boom", fun _ => .error "boom"⟩ false
            ⟨none, .ok [⟨"S", "T", .ok [], none⟩], .ok 0, []⟩).2)) :=
  ⟨by decide,
   c9_part_tables_first_no_planner "m"
     ⟨fun _ => .error "boom", fun _ => .error "boom",
       fun _ => .error "boom", fun _ => .error "boom"⟩ false ["T"] []
     ⟨none, .ok [⟨"S", "T", .ok [], none⟩], .ok 0, []⟩
     ⟨none, .ok [], .ok 0, []⟩ (by decide)⟩
